import Mathlib

/-!
Verification of the Planora reservation lifecycle engine.

This file gives a shallow embedding of the two core services of the
repository — `EventsService` (src/backend/src/events, the event registry)
and `ReservationsService` (the reservation lifecycle engine) — and proves
the specified properties about them.

Modelling conventions:
- The Mongo repositories are modelled as association lists from id strings
  to records; `save` replaces the entry with the matching key, creation
  appends a fresh entry.
- JavaScript `Date` values are epoch milliseconds (`Int`); the float
  division computing `hoursBeforeEvent` is modelled exactly over `ℚ`
  (the operands are integral, so the comparison against 24 agrees with
  the double-precision computation of the source).
- A thrown NestJS exception is an `Except.error` carrying the exception
  class (`Failure` constructor) and the message.  Message text is not part
  of the programmatic contract, so each distinct message of the source is
  represented by one constructor of `Msg` naming its throw site.
- Mutation that has already been persisted when an exception is thrown
  must survive the throw, so every state-changing operation returns
  `Store × Except Failure α`: the store component is the persisted state
  even on the error path.
- `new ObjectId(id)` throws on malformed input; the BSON library accepts a
  24-character hex string or a 12-character byte string.  The services
  wrap the constructor in try/catch and translate the throw to `none`.
-/

set_option autoImplicit false

namespace Planora

/-- Event lifecycle status, from common/enums/event-status.enum.ts. -/
inductive EventStatus
  | draft
  | published
  | canceled
deriving DecidableEq, Repr

/-- Reservation lifecycle status, from common/enums/reservation-status.enum.ts. -/
inductive ReservationStatus
  | pending
  | confirmed
  | canceled
  | checked_in
  | no_show
  | refunded
deriving DecidableEq, Repr

/-- One constructor per distinct human-readable message produced by the two
services.  The text itself is not contractual (spec section 7); each
constructor names the throw or return site in the source. -/
inductive Msg
  | eventNotFound
  | reservationNotFound
  | incrementOnlyPublished
  | eventFullIncrement
  | onlyPendingCanConfirm
  | cancelNoPermission
  | alreadyCanceledReservation
  | noCancelAfterCheckIn
  | cancelWindowClosed
  | onlyConfirmedCanCheckIn
  | checkInNotYetOpen
  | eventEnded
  | onlyConfirmedCanNoShow
  | onlyCanceledOrNoShowRefund
  | reservationsOnlyPublished
  | eventPastOrOngoing
  | eventFullyBooked
  | spotsRemaining (availableSpots : Int)
  | activeReservationExists
  | capacityBelowRegistered (registeredCount : Int)
deriving DecidableEq, Repr

/-- A thrown NestJS exception: the constructor is the exception class. -/
inductive Failure
  | notFound (msg : Msg)
  | badRequest (msg : Msg)
  | conflict (msg : Msg)
  | forbidden (msg : Msg)
deriving DecidableEq, Repr

deriving instance DecidableEq for Except

/-- Event entity (events/entities/event.entity.ts), restricted to the fields
the two services read or write. -/
structure Event where
  title : String
  location : String
  capacity : Int
  registeredCount : Int
  status : EventStatus
  startDate : Int
  endDate : Int
  price : Int
  organizerId : String
deriving DecidableEq, Repr

/-- Reservation entity (reservations/entities/reservation.entity.ts),
restricted to the fields the two services read or write. -/
structure Reservation where
  reservationNumber : String
  eventId : String
  eventTitle : String
  eventDate : Int
  eventLocation : String
  userId : String
  userEmail : String
  userName : String
  numberOfTickets : Nat
  totalPrice : Int
  status : ReservationStatus
  cancelReason : Option String
  confirmedAt : Option Int
  canceledAt : Option Int
  checkedInAt : Option Int
  qrCode : String
deriving DecidableEq, Repr

/-- The persistent state: the two Mongo collections, keyed by id string. -/
structure Store where
  events : List (String × Event)
  reservations : List (String × Reservation)
deriving DecidableEq, Repr

/-- Lookup by key in a collection (repo.findOne on _id): the first entry
whose key matches. -/
def lookupL {α : Type} : List (String × α) → String → Option α
  | [], _ => none
  | p :: t, k => if p.1 == k then some p.2 else lookupL t k

/-- Replace the entry with the given key (repo.save of an existing document). -/
def replaceL {α : Type} (l : List (String × α)) (k : String) (v : α) :
    List (String × α) :=
  l.map (fun p => if p.1 == k then (k, v) else p)

/-- Hexadecimal digit test, as in the checkForHexRegExp of the BSON library. -/
def isHexDigit (c : Char) : Bool :=
  c.isDigit || (('a' ≤ c) && (c ≤ 'f')) || (('A' ≤ c) && (c ≤ 'F'))

/-- Strings accepted by `new ObjectId(s)` without throwing: a 24-character
hex string, or a 12-character string taken as raw bytes. -/
def isValidObjectId (s : String) : Bool :=
  (s.length == 24 && s.toList.all isHexDigit) || s.length == 12

namespace EventsService

/-- Private findEventById: try/catch around `new ObjectId(id)` followed by
repo.findOne; a malformed id resolves to null instead of throwing. -/
def findEventById (st : Store) (id : String) : Option Event :=
  if isValidObjectId id then lookupL st.events id else none

/-- EventsService.findById: NotFoundException when the id does not resolve. -/
def findById (st : Store) (id : String) : Except Failure Event :=
  match findEventById st id with
  | none => Except.error (Failure.notFound Msg.eventNotFound)
  | some e => Except.ok e

/-- eventsRepo.save of an existing event document. -/
def saveEvent (st : Store) (id : String) (e : Event) : Store :=
  { st with events := replaceL st.events id e }

/-- EventsService.incrementRegisteredCount: only published events, refuses
when registeredCount has reached capacity, otherwise adds 1 and persists. -/
def incrementRegisteredCount (st : Store) (id : String) :
    Store × Except Failure Event :=
  match findById st id with
  | Except.error f => (st, Except.error f)
  | Except.ok e =>
    if e.status ≠ EventStatus.published then
      (st, Except.error (Failure.badRequest Msg.incrementOnlyPublished))
    else if e.registeredCount ≥ e.capacity then
      (st, Except.error (Failure.badRequest Msg.eventFullIncrement))
    else
      let e2 := { e with registeredCount := e.registeredCount + 1 }
      (saveEvent st id e2, Except.ok e2)

/-- EventsService.decrementRegisteredCount: subtracts 1 and persists when the
count is positive, otherwise returns the event unchanged without saving. -/
def decrementRegisteredCount (st : Store) (id : String) :
    Store × Except Failure Event :=
  match findById st id with
  | Except.error f => (st, Except.error f)
  | Except.ok e =>
    if e.registeredCount > 0 then
      let e2 := { e with registeredCount := e.registeredCount - 1 }
      (saveEvent st id e2, Except.ok e2)
    else
      (st, Except.ok e)

/-- Private validateCapacity, called by EventsService.update whenever the
update carries a capacity: rejects a capacity below the registered count. -/
def validateCapacity (newCapacity registeredCount : Int) :
    Except Failure Unit :=
  if newCapacity < registeredCount then
    Except.error (Failure.badRequest (Msg.capacityBelowRegistered registeredCount))
  else
    Except.ok ()

end EventsService

namespace ReservationsService

/-- Private findReservationById: try/catch around `new ObjectId(id)` followed
by repo.findOne; a malformed id resolves to null instead of throwing. -/
def findReservationById (st : Store) (id : String) : Option Reservation :=
  if isValidObjectId id then lookupL st.reservations id else none

/-- ReservationsService.findById: NotFoundException when the id does not
resolve. -/
def findById (st : Store) (id : String) : Except Failure Reservation :=
  match findReservationById st id with
  | none => Except.error (Failure.notFound Msg.reservationNotFound)
  | some r => Except.ok r

/-- reservationsRepo.save of an existing reservation document. -/
def saveReservation (st : Store) (id : String) (r : Reservation) : Store :=
  { st with reservations := replaceL st.reservations id r }

/-- The per-ticket increment loop of confirm: `numberOfTickets` individual
awaited calls to EventsService.incrementRegisteredCount.  A failing call
aborts the loop; increments persisted by earlier iterations remain, so the
store is returned together with the failure. -/
def incrementLoop (eventId : String) : Nat → Store → Store × Option Failure
  | 0, st => (st, none)
  | n + 1, st =>
    match EventsService.incrementRegisteredCount st eventId with
    | (st1, Except.error f) => (st1, some f)
    | (st1, Except.ok _) => incrementLoop eventId n st1

/-- The per-ticket decrement loop of cancel: `numberOfTickets` individual
awaited calls to EventsService.decrementRegisteredCount. -/
def decrementLoop (eventId : String) : Nat → Store → Store × Option Failure
  | 0, st => (st, none)
  | n + 1, st =>
    match EventsService.decrementRegisteredCount st eventId with
    | (st1, Except.error f) => (st1, some f)
    | (st1, Except.ok _) => decrementLoop eventId n st1

/-- ReservationsService.confirm (the isSystem flag of the source has no
effect on behaviour and is omitted): only a pending reservation can be
confirmed; the event counter is incremented once per ticket, then the
reservation becomes confirmed with confirmedAt set and is persisted. -/
def confirm (st : Store) (id : String) (now : Int) :
    Store × Except Failure Reservation :=
  match findById st id with
  | Except.error f => (st, Except.error f)
  | Except.ok r =>
    if r.status ≠ ReservationStatus.pending then
      (st, Except.error (Failure.badRequest Msg.onlyPendingCanConfirm))
    else
      match incrementLoop r.eventId r.numberOfTickets st with
      | (st1, some f) => (st1, Except.error f)
      | (st1, none) =>
        let r2 := { r with
          status := ReservationStatus.confirmed
          confirmedAt := some now }
        (saveReservation st1 id r2, Except.ok r2)

/-- Hours between now and the event start, as computed by cancel:
`(startDate.getTime() - Date.now()) / (1000 * 60 * 60)`.  Both operands are
integral milliseconds, so exact rational division models the double
division faithfully for the comparison against 24. -/
def hoursBeforeEvent (startDate now : Int) : ℚ :=
  ((startDate - now : Int) : ℚ) / (1000 * 60 * 60)

/-- Default cancelReason of the source, used when the dto carries no reason
(or an empty string, which is falsy in JavaScript). -/
def defaultCancelReason : String := "Annulation par l\x27utilisateur"

/-- Models `cancelDto.reason || default`. -/
def appliedCancelReason (reason : Option String) : String :=
  match reason with
  | some s => if s = "" then defaultCancelReason else s
  | none => defaultCancelReason

/-- ReservationsService.cancel: permission check (owner or admin), status
guards (not already canceled or refunded, not checked in), 24-hour window
for non-admins, capacity release once per ticket when the reservation was
confirmed, then the reservation becomes canceled and is persisted. -/
def cancel (st : Store) (id : String) (reason : Option String)
    (userId : String) (isAdmin : Bool) (now : Int) :
    Store × Except Failure Reservation :=
  match findById st id with
  | Except.error f => (st, Except.error f)
  | Except.ok r =>
    if ¬isAdmin ∧ r.userId ≠ userId then
      (st, Except.error (Failure.forbidden Msg.cancelNoPermission))
    else if r.status = ReservationStatus.canceled ∨
        r.status = ReservationStatus.refunded then
      (st, Except.error (Failure.badRequest Msg.alreadyCanceledReservation))
    else if r.status = ReservationStatus.checked_in then
      (st, Except.error (Failure.badRequest Msg.noCancelAfterCheckIn))
    else
      match EventsService.findById st r.eventId with
      | Except.error f => (st, Except.error f)
      | Except.ok e =>
        if hoursBeforeEvent e.startDate now < 24 ∧ ¬isAdmin then
          (st, Except.error (Failure.badRequest Msg.cancelWindowClosed))
        else
          match
            if r.status = ReservationStatus.confirmed then
              decrementLoop r.eventId r.numberOfTickets st
            else (st, none)
          with
          | (st1, some f) => (st1, Except.error f)
          | (st1, none) =>
            let r2 := { r with
              status := ReservationStatus.canceled
              cancelReason := some (appliedCancelReason reason)
              canceledAt := some now }
            (saveReservation st1 id r2, Except.ok r2)

/-- ReservationsService.checkIn: only a confirmed reservation, and only from
two hours before the event start until the event end. -/
def checkIn (st : Store) (id : String) (now : Int) :
    Store × Except Failure Reservation :=
  match findById st id with
  | Except.error f => (st, Except.error f)
  | Except.ok r =>
    if r.status ≠ ReservationStatus.confirmed then
      (st, Except.error (Failure.badRequest Msg.onlyConfirmedCanCheckIn))
    else
      match EventsService.findById st r.eventId with
      | Except.error f => (st, Except.error f)
      | Except.ok e =>
        let checkInStart := e.startDate - 2 * 60 * 60 * 1000
        if now < checkInStart then
          (st, Except.error (Failure.badRequest Msg.checkInNotYetOpen))
        else if now > e.endDate then
          (st, Except.error (Failure.badRequest Msg.eventEnded))
        else
          let r2 := { r with
            status := ReservationStatus.checked_in
            checkedInAt := some now }
          (saveReservation st id r2, Except.ok r2)

/-- ReservationsService.markNoShow: only a confirmed reservation; does not
touch the event counter. -/
def markNoShow (st : Store) (id : String) :
    Store × Except Failure Reservation :=
  match findById st id with
  | Except.error f => (st, Except.error f)
  | Except.ok r =>
    if r.status ≠ ReservationStatus.confirmed then
      (st, Except.error (Failure.badRequest Msg.onlyConfirmedCanNoShow))
    else
      let r2 := { r with status := ReservationStatus.no_show }
      (saveReservation st id r2, Except.ok r2)

/-- ReservationsService.refund: only a canceled or no-show reservation; does
not touch the event counter. -/
def refund (st : Store) (id : String) :
    Store × Except Failure Reservation :=
  match findById st id with
  | Except.error f => (st, Except.error f)
  | Except.ok r =>
    if r.status ≠ ReservationStatus.canceled ∧
        r.status ≠ ReservationStatus.no_show then
      (st, Except.error (Failure.badRequest Msg.onlyCanceledOrNoShowRefund))
    else
      let r2 := { r with status := ReservationStatus.refunded }
      (saveReservation st id r2, Except.ok r2)

/-- Result record of verifyByQrCode.  The message constructors name the four
invalid outcomes and the valid one. -/
inductive VerifyMsg
  | invalidQrCode
  | qrReservationCanceled
  | qrAlreadyUsed
  | qrNotValid
  | qrValidReservation
deriving DecidableEq, Repr

/-- Return shape of verifyByQrCode. -/
structure VerifyResult where
  valid : Bool
  reservation : Option Reservation
  message : VerifyMsg
deriving DecidableEq, Repr

/-- reservationsRepo.findOne({ where: { qrCode } }): the first stored
reservation whose qrCode token equals the scanned one. -/
def findByQrCode (st : Store) (qrCode : String) : Option Reservation :=
  (st.reservations.find? (fun p => p.2.qrCode == qrCode)).map (fun p => p.2)

/-- ReservationsService.verifyByQrCode: the ordered decision table of the
source; a pure read that persists nothing (the store is returned unchanged
to make that explicit). -/
def verifyByQrCode (st : Store) (qrCode : String) : Store × VerifyResult :=
  match findByQrCode st qrCode with
  | none =>
    (st, { valid := false, reservation := none,
           message := VerifyMsg.invalidQrCode })
  | some r =>
    if r.status = ReservationStatus.canceled then
      (st, { valid := false, reservation := some r,
             message := VerifyMsg.qrReservationCanceled })
    else if r.status = ReservationStatus.checked_in then
      (st, { valid := false, reservation := some r,
             message := VerifyMsg.qrAlreadyUsed })
    else if r.status ≠ ReservationStatus.confirmed then
      (st, { valid := false, reservation := some r,
             message := VerifyMsg.qrNotValid })
    else
      (st, { valid := true, reservation := some r,
             message := VerifyMsg.qrValidReservation })

/-- Private validateEventForReservation: reservations only for published
events whose start date is strictly in the future. -/
def validateEventForReservation (e : Event) (now : Int) :
    Except Failure Unit :=
  if e.status ≠ EventStatus.published then
    Except.error (Failure.badRequest Msg.reservationsOnlyPublished)
  else if e.startDate ≤ now then
    Except.error (Failure.badRequest Msg.eventPastOrOngoing)
  else
    Except.ok ()

/-- Private checkOverbooking: ConflictException when fewer spots remain than
tickets requested, with a distinct message when the event is full. -/
def checkOverbooking (e : Event) (numberOfTickets : Nat) :
    Except Failure Unit :=
  let availableSpots := e.capacity - e.registeredCount
  if availableSpots < (numberOfTickets : Int) then
    if availableSpots = 0 then
      Except.error (Failure.conflict Msg.eventFullyBooked)
    else
      Except.error (Failure.conflict (Msg.spotsRemaining availableSpots))
  else
    Except.ok ()

/-- Statuses counted as an active reservation by checkExistingReservation. -/
def isActiveStatus : ReservationStatus → Bool
  | ReservationStatus.pending => true
  | ReservationStatus.confirmed => true
  | _ => false

/-- The findOne predicate of checkExistingReservation: same event, same
user, status pending or confirmed. -/
def activePred (eventId userId : String) (p : String × Reservation) : Bool :=
  p.2.eventId == eventId && p.2.userId == userId && isActiveStatus p.2.status

/-- Private checkExistingReservation: ConflictException when the user
already holds a pending or confirmed reservation for the event. -/
def checkExistingReservation (st : Store) (eventId userId : String) :
    Except Failure Unit :=
  match st.reservations.find? (activePred eventId userId) with
  | some _ => Except.error (Failure.conflict Msg.activeReservationExists)
  | none => Except.ok ()

/-- The reservations a given user actively holds on a given event. -/
def activeList (st : Store) (eventId userId : String) :
    List (String × Reservation) :=
  st.reservations.filter (activePred eventId userId)

/-- The single-active-reservation invariant of the spec: every (user, event)
pair holds at most one pending-or-confirmed reservation. -/
def singleActiveInvariant (st : Store) : Prop :=
  ∀ eventId userId, (activeList st eventId userId).length ≤ 1

/-- The pending reservation document built by create: snapshot fields copied
from the event, totalPrice computed once, status pending. -/
def createdReservation (event : Event) (eventId : String)
    (numberOfTickets : Nat)
    (userId userEmail userName reservationNumber qrCode : String) :
    Reservation :=
  { reservationNumber := reservationNumber
    eventId := eventId
    eventTitle := event.title
    eventDate := event.startDate
    eventLocation := event.location
    userId := userId
    userEmail := userEmail
    userName := userName
    numberOfTickets := numberOfTickets
    totalPrice := event.price * (numberOfTickets : Int)
    status := ReservationStatus.pending
    cancelReason := none
    confirmedAt := none
    canceledAt := none
    checkedInAt := none
    qrCode := qrCode }

/-- ReservationsService.create.  The generated reservationNumber, qrCode
token and the _id assigned by the save are time- or randomness-dependent in
the source, so they are taken as inputs here.  After the guards the pending
reservation is persisted (an append of a fresh key) and confirm is invoked
on it as part of the same logical operation. -/
def create (st : Store) (eventId : String) (numberOfTickets : Nat)
    (userId userEmail userName : String)
    (reservationNumber qrCode newId : String) (now : Int) :
    Store × Except Failure Reservation :=
  match EventsService.findById st eventId with
  | Except.error f => (st, Except.error f)
  | Except.ok event =>
    match validateEventForReservation event now with
    | Except.error f => (st, Except.error f)
    | Except.ok _ =>
      match checkOverbooking event numberOfTickets with
      | Except.error f => (st, Except.error f)
      | Except.ok _ =>
        match checkExistingReservation st eventId userId with
        | Except.error f => (st, Except.error f)
        | Except.ok _ =>
          let r : Reservation := createdReservation event eventId
            numberOfTickets userId userEmail userName reservationNumber qrCode
          let st1 : Store :=
            { st with reservations := st.reservations ++ [(newId, r)] }
          confirm st1 newId now

end ReservationsService

/-! ### Sample data

Concrete stores used to instantiate the theorems below on closed inputs.
The id strings are well-formed 24-character hex ObjectIds. -/

/-- Classification helper: whether a failure is a ConflictException. -/
def failureIsConflict : Failure → Bool
  | Failure.conflict _ => true
  | _ => false

/-- Classification helper: whether a failure is a NotFoundException. -/
def failureIsNotFound : Failure → Bool
  | Failure.notFound _ => true
  | _ => false

def sampleEventId : String := "aaaaaaaaaaaaaaaaaaaaaaaa"

def sampleReservationId : String := "bbbbbbbbbbbbbbbbbbbbbbbb"

def sampleNewId : String := "cccccccccccccccccccccccc"

/-- A published future event with one spot still free. -/
def evOpen : Event :=
  { title := "t", location := "l", capacity := 2, registeredCount := 1,
    status := EventStatus.published, startDate := 500000000,
    endDate := 600000000, price := 5, organizerId := "org" }

def stOpen : Store :=
  { events := [(sampleEventId, evOpen)], reservations := [] }

/-- A published event with a single spot, none taken yet. -/
def evTight : Event := { evOpen with capacity := 1, registeredCount := 0 }

/-- A pending two-ticket reservation on the sample event by user u1. -/
def resPendingTwo : Reservation :=
  { reservationNumber := "RES-1", eventId := sampleEventId, eventTitle := "t",
    eventDate := 500000000, eventLocation := "l", userId := "u1",
    userEmail := "e", userName := "n", numberOfTickets := 2, totalPrice := 10,
    status := ReservationStatus.pending, cancelReason := none,
    confirmedAt := none, canceledAt := none, checkedInAt := none,
    qrCode := "QR-1" }

def stTight : Store :=
  { events := [(sampleEventId, evTight)],
    reservations := [(sampleReservationId, resPendingTwo)] }

/-- A published event that is already full. -/
def evFull : Event := { evOpen with capacity := 1, registeredCount := 1 }

def stFull : Store :=
  { events := [(sampleEventId, evFull)], reservations := [] }

/-- A confirmed one-ticket reservation by user u1. -/
def resConfirmedOne : Reservation :=
  { resPendingTwo with
    numberOfTickets := 1
    totalPrice := 5
    status := ReservationStatus.confirmed }

/-- A published event with plenty of room. -/
def evRoomy : Event := { evOpen with capacity := 10, registeredCount := 1 }

def stActive : Store :=
  { events := [(sampleEventId, evRoomy)],
    reservations := [(sampleReservationId, resConfirmedOne)] }

def resCanceled : Reservation :=
  { resPendingTwo with status := ReservationStatus.canceled }

def stCanceled : Store :=
  { events := [(sampleEventId, evOpen)],
    reservations := [(sampleReservationId, resCanceled)] }

def evMid : Event := { evOpen with capacity := 5, registeredCount := 3 }

def resConfirmedTwo : Reservation :=
  { resPendingTwo with status := ReservationStatus.confirmed }

def stMid : Store :=
  { events := [(sampleEventId, evMid)],
    reservations := [(sampleReservationId, resConfirmedTwo)] }

def stWindow : Store :=
  { events := [(sampleEventId, evOpen)],
    reservations := [(sampleReservationId, resConfirmedTwo)] }

def resNoShow : Reservation :=
  { resPendingTwo with status := ReservationStatus.no_show }

def stNoShow : Store :=
  { events := [(sampleEventId, evOpen)],
    reservations := [(sampleReservationId, resNoShow)] }

def resCheckedIn : Reservation :=
  { resPendingTwo with status := ReservationStatus.checked_in }

def stCheckedIn : Store :=
  { events := [(sampleEventId, evOpen)],
    reservations := [(sampleReservationId, resCheckedIn)] }

def stEmptyStore : Store := { events := [], reservations := [] }

/-! ### Store lemmas -/

theorem lookupL_replaceL_self {α : Type} (l : List (String × α)) (k : String)
    (v w : α) (h : lookupL l k = some w) :
    lookupL (replaceL l k v) k = some v := by
  induction l with
  | nil => simp [lookupL] at h
  | cons p t ih =>
    cases hk : p.1 == k with
    | true => simp [lookupL, replaceL, hk]
    | false =>
      simp only [lookupL, replaceL, List.map_cons, hk, Bool.false_eq_true,
        if_false] at h ⊢
      exact ih h

theorem replaceL_eq_of_not_mem {α : Type} (l : List (String × α)) (k : String)
    (v : α) (h : lookupL l k = none) : replaceL l k v = l := by
  induction l with
  | nil => rfl
  | cons p t ih =>
    cases hk : p.1 == k with
    | true => simp [lookupL, hk] at h
    | false =>
      simp only [lookupL, hk, Bool.false_eq_true, if_false] at h
      simp only [replaceL, List.map_cons, hk, Bool.false_eq_true, if_false]
      exact congrArg (p :: ·) (ih h)

theorem lookupL_append_right {α : Type} (l1 l2 : List (String × α))
    (k : String) (h : lookupL l1 k = none) :
    lookupL (l1 ++ l2) k = lookupL l2 k := by
  induction l1 with
  | nil => rfl
  | cons p t ih =>
    cases hk : p.1 == k with
    | true => simp [lookupL, hk] at h
    | false =>
      simp only [lookupL, List.cons_append, hk, Bool.false_eq_true,
        if_false] at h ⊢
      exact ih h

theorem replaceL_append {α : Type} (l1 l2 : List (String × α)) (k : String)
    (v : α) : replaceL (l1 ++ l2) k v = replaceL l1 k v ++ replaceL l2 k v := by
  simp [replaceL]

namespace EventsService

theorem findEventById_saveEvent_self (st : Store) (id : String) (e e2 : Event)
    (h : findEventById st id = some e) :
    findEventById (saveEvent st id e2) id = some e2 := by
  by_cases hv : isValidObjectId id
  · simp only [findEventById, hv, if_true] at h ⊢
    exact lookupL_replaceL_self st.events id e2 e h
  · simp [findEventById, hv] at h

theorem saveEvent_reservations (st : Store) (id : String) (e : Event) :
    (saveEvent st id e).reservations = st.reservations := rfl

theorem findEventById_congr (st1 st2 : Store) (id : String)
    (h : st1.events = st2.events) :
    findEventById st1 id = findEventById st2 id := by
  simp [findEventById, h]

theorem eventsFindById_eq_of_some (st : Store) (id : String) (e : Event)
    (h : findEventById st id = some e) : findById st id = Except.ok e := by
  simp [findById, h]

theorem eventsFindById_eq_of_none (st : Store) (id : String)
    (h : findEventById st id = none) :
    findById st id = Except.error (Failure.notFound Msg.eventNotFound) := by
  simp [findById, h]

theorem increment_eq_of_ok (st : Store) (id : String) (e : Event)
    (h : findEventById st id = some e) (hp : e.status = EventStatus.published)
    (hc : e.registeredCount < e.capacity) :
    incrementRegisteredCount st id =
      (saveEvent st id { e with registeredCount := e.registeredCount + 1 },
       Except.ok { e with registeredCount := e.registeredCount + 1 }) := by
  simp [incrementRegisteredCount, findById, h, hp, not_le.mpr hc]

theorem increment_eq_of_full (st : Store) (id : String) (e : Event)
    (h : findEventById st id = some e) (hp : e.status = EventStatus.published)
    (hc : e.capacity ≤ e.registeredCount) :
    incrementRegisteredCount st id =
      (st, Except.error (Failure.badRequest Msg.eventFullIncrement)) := by
  simp [incrementRegisteredCount, findById, h, hp, hc]

theorem increment_eq_of_not_published (st : Store) (id : String) (e : Event)
    (h : findEventById st id = some e) (hp : e.status ≠ EventStatus.published) :
    incrementRegisteredCount st id =
      (st, Except.error (Failure.badRequest Msg.incrementOnlyPublished)) := by
  simp [incrementRegisteredCount, findById, h, hp]

theorem decrement_eq_of_pos (st : Store) (id : String) (e : Event)
    (h : findEventById st id = some e) (hc : 0 < e.registeredCount) :
    decrementRegisteredCount st id =
      (saveEvent st id { e with registeredCount := e.registeredCount - 1 },
       Except.ok { e with registeredCount := e.registeredCount - 1 }) := by
  simp [decrementRegisteredCount, findById, h, hc]

theorem decrement_eq_of_zero (st : Store) (id : String) (e : Event)
    (h : findEventById st id = some e) (hc : e.registeredCount ≤ 0) :
    decrementRegisteredCount st id = (st, Except.ok e) := by
  simp [decrementRegisteredCount, findById, h, not_lt.mpr hc]

end EventsService

namespace ReservationsService

theorem findReservationById_saveReservation_self (st : Store) (id : String)
    (r r2 : Reservation) (h : findReservationById st id = some r) :
    findReservationById (saveReservation st id r2) id = some r2 := by
  by_cases hv : isValidObjectId id
  · simp only [findReservationById, hv, if_true] at h ⊢
    exact lookupL_replaceL_self st.reservations id r2 r h
  · simp [findReservationById, hv] at h

theorem findReservationById_congr (st1 st2 : Store) (id : String)
    (h : st1.reservations = st2.reservations) :
    findReservationById st1 id = findReservationById st2 id := by
  simp [findReservationById, lookupL, h]

theorem resFindById_eq_of_some (st : Store) (id : String) (r : Reservation)
    (h : findReservationById st id = some r) : findById st id = Except.ok r := by
  simp [findById, h]

theorem resFindById_eq_of_none (st : Store) (id : String)
    (h : findReservationById st id = none) :
    findById st id =
      Except.error (Failure.notFound Msg.reservationNotFound) := by
  simp [findById, h]

/-! ### Loop lemmas -/

theorem increment_reservations (st : Store) (id : String) :
    ((EventsService.incrementRegisteredCount st id).1).reservations =
      st.reservations := by
  unfold EventsService.incrementRegisteredCount
  cases EventsService.findById st id with
  | error f => rfl
  | ok e =>
    by_cases hp : e.status ≠ EventStatus.published
    · simp [hp]
    · by_cases hc : e.registeredCount ≥ e.capacity
      · simp [hp, hc]
      · simp [hp, hc, EventsService.saveEvent_reservations]

theorem decrement_reservations (st : Store) (id : String) :
    ((EventsService.decrementRegisteredCount st id).1).reservations =
      st.reservations := by
  unfold EventsService.decrementRegisteredCount
  cases EventsService.findById st id with
  | error f => rfl
  | ok e =>
    by_cases hc : e.registeredCount > 0
    · simp [hc, EventsService.saveEvent_reservations]
    · simp [hc]

theorem incrementLoop_reservations (eid : String) (n : Nat) :
    ∀ st : Store,
      ((incrementLoop eid n st).1).reservations = st.reservations := by
  induction n with
  | zero => intro st; rfl
  | succ n ih =>
    intro st
    rcases hinc : EventsService.incrementRegisteredCount st eid with ⟨st1, out⟩
    have hres : st1.reservations = st.reservations := by
      have h2 := increment_reservations st eid
      rw [hinc] at h2
      exact h2
    simp only [incrementLoop]
    rw [hinc]
    cases out with
    | error f => simpa using hres
    | ok e =>
      simp only []
      rw [ih st1, hres]

theorem decrementLoop_reservations (eid : String) (n : Nat) :
    ∀ st : Store,
      ((decrementLoop eid n st).1).reservations = st.reservations := by
  induction n with
  | zero => intro st; rfl
  | succ n ih =>
    intro st
    rcases hdec : EventsService.decrementRegisteredCount st eid with ⟨st1, out⟩
    have hres : st1.reservations = st.reservations := by
      have h2 := decrement_reservations st eid
      rw [hdec] at h2
      exact h2
    simp only [decrementLoop]
    rw [hdec]
    cases out with
    | error f => simpa using hres
    | ok e =>
      simp only []
      rw [ih st1, hres]

theorem incrementLoop_ok (eid : String) (n : Nat) :
    ∀ (st : Store) (e : Event),
      EventsService.findEventById st eid = some e →
      e.status = EventStatus.published →
      (n : Int) ≤ e.capacity - e.registeredCount →
      (incrementLoop eid n st).2 = none ∧
      ∃ e2, EventsService.findEventById ((incrementLoop eid n st).1) eid =
          some e2 ∧
        e2.registeredCount = e.registeredCount + n ∧
        e2.capacity = e.capacity ∧ e2.status = e.status := by
  induction n with
  | zero =>
    intro st e h hp hc
    exact ⟨rfl, e, h, by simp, rfl, rfl⟩
  | succ n ih =>
    intro st e h hp hc
    have hc2 : (n : Int) + 1 ≤ e.capacity - e.registeredCount := by
      push_cast at hc
      omega
    have hlt : e.registeredCount < e.capacity := by omega
    simp only [incrementLoop]
    rw [EventsService.increment_eq_of_ok st eid e h hp hlt]
    simp only []
    have h1 : EventsService.findEventById
        (EventsService.saveEvent st eid
          { e with registeredCount := e.registeredCount + 1 }) eid =
        some { e with registeredCount := e.registeredCount + 1 } :=
      EventsService.findEventById_saveEvent_self st eid e _ h
    have hc1 : (n : Int) ≤
        ({ e with registeredCount := e.registeredCount + 1 } : Event).capacity -
        ({ e with registeredCount := e.registeredCount + 1 } : Event).registeredCount := by
      show (n : Int) ≤ e.capacity - (e.registeredCount + 1)
      omega
    obtain ⟨hnone, e2, hfind, hrc, hcap, hstat⟩ := ih _ _ h1 hp hc1
    refine ⟨hnone, e2, hfind, ?_, hcap, hstat⟩
    have hrc2 : e2.registeredCount = e.registeredCount + 1 + (n : Int) := hrc
    push_cast
    omega

theorem incrementLoop_full (eid : String) (n : Nat) :
    ∀ (st : Store) (e : Event),
      EventsService.findEventById st eid = some e →
      e.status = EventStatus.published →
      e.registeredCount ≤ e.capacity →
      e.capacity - e.registeredCount < (n : Int) →
      (incrementLoop eid n st).2 =
        some (Failure.badRequest Msg.eventFullIncrement) ∧
      ∃ e2, EventsService.findEventById ((incrementLoop eid n st).1) eid =
          some e2 ∧
        e2.registeredCount = e.capacity ∧ e2.capacity = e.capacity := by
  induction n with
  | zero =>
    intro st e h hp hle hc
    push_cast at hc
    omega
  | succ n ih =>
    intro st e h hp hle hc
    by_cases hfull : e.capacity ≤ e.registeredCount
    · simp only [incrementLoop]
      rw [EventsService.increment_eq_of_full st eid e h hp hfull]
      exact ⟨rfl, e, h, by omega, rfl⟩
    · have hlt : e.registeredCount < e.capacity := by omega
      simp only [incrementLoop]
      rw [EventsService.increment_eq_of_ok st eid e h hp hlt]
      simp only []
      have h1 : EventsService.findEventById
          (EventsService.saveEvent st eid
            { e with registeredCount := e.registeredCount + 1 }) eid =
          some { e with registeredCount := e.registeredCount + 1 } :=
        EventsService.findEventById_saveEvent_self st eid e _ h
      have hle1 : ({ e with registeredCount := e.registeredCount + 1 } :
          Event).registeredCount ≤
          ({ e with registeredCount := e.registeredCount + 1 } : Event).capacity := by
        show e.registeredCount + 1 ≤ e.capacity
        omega
      have hc1 : ({ e with registeredCount := e.registeredCount + 1 } :
          Event).capacity -
          ({ e with registeredCount := e.registeredCount + 1 } :
            Event).registeredCount < (n : Int) := by
        show e.capacity - (e.registeredCount + 1) < (n : Int)
        push_cast at hc
        omega
      obtain ⟨hsome, e2, hfind, hrc, hcap⟩ := ih _ _ h1 hp hle1 hc1
      exact ⟨hsome, e2, hfind, hrc, hcap⟩

theorem decrementLoop_ok (eid : String) (n : Nat) :
    ∀ (st : Store) (e : Event),
      EventsService.findEventById st eid = some e →
      (n : Int) ≤ e.registeredCount →
      (decrementLoop eid n st).2 = none ∧
      ∃ e2, EventsService.findEventById ((decrementLoop eid n st).1) eid =
          some e2 ∧
        e2.registeredCount = e.registeredCount - n ∧
        e2.capacity = e.capacity := by
  induction n with
  | zero =>
    intro st e h hc
    exact ⟨rfl, e, h, by simp, rfl⟩
  | succ n ih =>
    intro st e h hc
    have hpos : 0 < e.registeredCount := by
      push_cast at hc
      omega
    simp only [decrementLoop]
    rw [EventsService.decrement_eq_of_pos st eid e h hpos]
    simp only []
    have h1 : EventsService.findEventById
        (EventsService.saveEvent st eid
          { e with registeredCount := e.registeredCount - 1 }) eid =
        some { e with registeredCount := e.registeredCount - 1 } :=
      EventsService.findEventById_saveEvent_self st eid e _ h
    have hc1 : (n : Int) ≤
        ({ e with registeredCount := e.registeredCount - 1 } :
          Event).registeredCount := by
      show (n : Int) ≤ e.registeredCount - 1
      push_cast at hc
      omega
    obtain ⟨hnone, e2, hfind, hrc, hcap⟩ := ih _ _ h1 hc1
    refine ⟨hnone, e2, hfind, ?_, hcap⟩
    have hrc2 : e2.registeredCount = e.registeredCount - 1 - (n : Int) := hrc
    push_cast
    omega

theorem decrementLoop_noFail (eid : String) (n : Nat) :
    ∀ (st : Store) (e : Event),
      EventsService.findEventById st eid = some e →
      (decrementLoop eid n st).2 = none ∧
      ∃ e2, EventsService.findEventById ((decrementLoop eid n st).1) eid =
        some e2 := by
  induction n with
  | zero =>
    intro st e h
    exact ⟨rfl, e, h⟩
  | succ n ih =>
    intro st e h
    by_cases hpos : 0 < e.registeredCount
    · simp only [decrementLoop]
      rw [EventsService.decrement_eq_of_pos st eid e h hpos]
      simp only []
      exact ih _ _ (EventsService.findEventById_saveEvent_self st eid e _ h)
    · simp only [decrementLoop]
      rw [EventsService.decrement_eq_of_zero st eid e h (by omega)]
      simp only []
      exact ih _ _ h

theorem confirm_eq_of_pending (st : Store) (id : String) (r : Reservation)
    (now : Int) (hr : findReservationById st id = some r)
    (hp : r.status = ReservationStatus.pending) :
    confirm st id now =
      (match incrementLoop r.eventId r.numberOfTickets st with
       | (st1, some f) => (st1, Except.error f)
       | (st1, none) =>
         (saveReservation st1 id
            { r with
              status := ReservationStatus.confirmed
              confirmedAt := some now },
          Except.ok
            { r with
              status := ReservationStatus.confirmed
              confirmedAt := some now })) := by
  unfold confirm
  rw [resFindById_eq_of_some st id r hr]
  simp [hp]

theorem cancel_eq_of_already (st : Store) (id : String) (r : Reservation)
    (reason : Option String) (userId : String) (isAdmin : Bool) (now : Int)
    (hr : findReservationById st id = some r)
    (hauth : isAdmin = true ∨ r.userId = userId)
    (hs : r.status = ReservationStatus.canceled ∨
      r.status = ReservationStatus.refunded) :
    cancel st id reason userId isAdmin now =
      (st, Except.error (Failure.badRequest Msg.alreadyCanceledReservation)) := by
  have hg1 : ¬(¬isAdmin ∧ r.userId ≠ userId) := by
    rcases hauth with h | h
    · simp [h]
    · simp [h]
  unfold cancel
  rw [resFindById_eq_of_some st id r hr]
  simp only [if_neg hg1, if_pos hs]

theorem cancel_eq_of_checked_in (st : Store) (id : String) (r : Reservation)
    (reason : Option String) (userId : String) (isAdmin : Bool) (now : Int)
    (hr : findReservationById st id = some r)
    (hauth : isAdmin = true ∨ r.userId = userId)
    (hs : r.status = ReservationStatus.checked_in) :
    cancel st id reason userId isAdmin now =
      (st, Except.error (Failure.badRequest Msg.noCancelAfterCheckIn)) := by
  have hg1 : ¬(¬isAdmin ∧ r.userId ≠ userId) := by
    rcases hauth with h | h
    · simp [h]
    · simp [h]
  have hg2 : ¬(r.status = ReservationStatus.canceled ∨
      r.status = ReservationStatus.refunded) := by
    simp [hs]
  unfold cancel
  rw [resFindById_eq_of_some st id r hr]
  simp only [if_neg hg1, if_neg hg2, if_pos hs]

theorem cancel_eq_of_window_closed (st : Store) (id : String)
    (r : Reservation) (e : Event) (reason : Option String) (userId : String)
    (now : Int)
    (hr : findReservationById st id = some r)
    (hown : r.userId = userId)
    (h1 : r.status ≠ ReservationStatus.canceled)
    (h2 : r.status ≠ ReservationStatus.refunded)
    (h3 : r.status ≠ ReservationStatus.checked_in)
    (he : EventsService.findEventById st r.eventId = some e)
    (hw : hoursBeforeEvent e.startDate now < 24) :
    cancel st id reason userId false now =
      (st, Except.error (Failure.badRequest Msg.cancelWindowClosed)) := by
  have hg1 : ¬(¬(false : Bool) ∧ r.userId ≠ userId) := by
    simp [hown]
  have hg2 : ¬(r.status = ReservationStatus.canceled ∨
      r.status = ReservationStatus.refunded) := by
    simp [h1, h2]
  unfold cancel
  rw [resFindById_eq_of_some st id r hr]
  simp only [if_neg hg1, if_neg hg2, if_neg h3]
  rw [EventsService.eventsFindById_eq_of_some st r.eventId e he]
  have hg4 : hoursBeforeEvent e.startDate now < 24 ∧ ¬(false : Bool) := by
    simp [hw]
  simp only [if_pos hg4]

theorem cancel_eq_of_pass (st : Store) (id : String) (r : Reservation)
    (e : Event) (reason : Option String) (userId : String) (isAdmin : Bool)
    (now : Int)
    (hr : findReservationById st id = some r)
    (hauth : isAdmin = true ∨ r.userId = userId)
    (h1 : r.status ≠ ReservationStatus.canceled)
    (h2 : r.status ≠ ReservationStatus.refunded)
    (h3 : r.status ≠ ReservationStatus.checked_in)
    (he : EventsService.findEventById st r.eventId = some e)
    (hw : isAdmin = true ∨ ¬(hoursBeforeEvent e.startDate now < 24)) :
    cancel st id reason userId isAdmin now =
      (match
        (if r.status = ReservationStatus.confirmed then
          decrementLoop r.eventId r.numberOfTickets st
        else (st, none))
      with
       | (st1, some f) => (st1, Except.error f)
       | (st1, none) =>
         (saveReservation st1 id
            { r with
              status := ReservationStatus.canceled
              cancelReason := some (appliedCancelReason reason)
              canceledAt := some now },
          Except.ok
            { r with
              status := ReservationStatus.canceled
              cancelReason := some (appliedCancelReason reason)
              canceledAt := some now })) := by
  have hg1 : ¬(¬isAdmin ∧ r.userId ≠ userId) := by
    rcases hauth with h | h
    · simp [h]
    · simp [h]
  have hg2 : ¬(r.status = ReservationStatus.canceled ∨
      r.status = ReservationStatus.refunded) := by
    simp [h1, h2]
  have hg4 : ¬(hoursBeforeEvent e.startDate now < 24 ∧ ¬isAdmin) := by
    rcases hw with h | h
    · simp [h]
    · simp [h]
  unfold cancel
  rw [resFindById_eq_of_some st id r hr]
  simp only [if_neg hg1, if_neg hg2, if_neg h3]
  rw [EventsService.eventsFindById_eq_of_some st r.eventId e he]
  simp only [if_neg hg4]

theorem cancel_ok_canceled (st : Store) (id : String)
    (reason : Option String) (userId : String) (isAdmin : Bool) (now : Int)
    (r2 : Reservation)
    (h : (cancel st id reason userId isAdmin now).2 = Except.ok r2) :
    r2.status = ReservationStatus.canceled ∧ r2.canceledAt = some now := by
  unfold cancel at h
  split at h
  · simp at h
  · split at h
    · simp at h
    · split at h
      · simp at h
      · split at h
        · simp at h
        · split at h
          · simp at h
          · split at h
            · simp at h
            · split at h
              · simp at h
              · simp only [Except.ok.injEq] at h
                subst h
                exact ⟨rfl, rfl⟩

theorem saveReservation_events (st : Store) (id : String) (r : Reservation) :
    (saveReservation st id r).events = st.events := rfl

theorem cancel_ok_of_pass (st : Store) (id : String) (r : Reservation)
    (e : Event) (reason : Option String) (userId : String) (isAdmin : Bool)
    (now : Int)
    (hr : findReservationById st id = some r)
    (hauth : isAdmin = true ∨ r.userId = userId)
    (h1 : r.status ≠ ReservationStatus.canceled)
    (h2 : r.status ≠ ReservationStatus.refunded)
    (h3 : r.status ≠ ReservationStatus.checked_in)
    (he : EventsService.findEventById st r.eventId = some e)
    (hw : isAdmin = true ∨ ¬(hoursBeforeEvent e.startDate now < 24)) :
    (cancel st id reason userId isAdmin now).2 =
      Except.ok
        { r with
          status := ReservationStatus.canceled
          cancelReason := some (appliedCancelReason reason)
          canceledAt := some now } := by
  rw [cancel_eq_of_pass st id r e reason userId isAdmin now hr hauth h1 h2 h3
    he hw]
  by_cases hc : r.status = ReservationStatus.confirmed
  · simp only [if_pos hc]
    obtain ⟨hnone, e2, hfind⟩ :=
      decrementLoop_noFail r.eventId r.numberOfTickets st e he
    rcases hloop : decrementLoop r.eventId r.numberOfTickets st with ⟨st1, out⟩
    rw [hloop] at hnone
    cases out with
    | some f => simp at hnone
    | none => rfl
  · simp only [if_neg hc]

theorem checkExisting_ok_iff (st : Store) (eventId userId : String) :
    checkExistingReservation st eventId userId = Except.ok () ↔
      st.reservations.find? (activePred eventId userId) = none := by
  unfold checkExistingReservation
  rcases hfind : st.reservations.find? (activePred eventId userId) with _ | p
  · simp
  · simp

theorem checkExisting_error_of_some (st : Store) (eventId userId : String)
    (h : (st.reservations.find? (activePred eventId userId)).isSome = true) :
    checkExistingReservation st eventId userId =
      Except.error (Failure.conflict Msg.activeReservationExists) := by
  unfold checkExistingReservation
  rcases hfind : st.reservations.find? (activePred eventId userId) with _ | p
  · rw [hfind] at h
    simp at h
  · rfl

theorem create_eq_of_event_error (st : Store) (eventId : String) (n : Nat)
    (userId userEmail userName reservationNumber qrCode newId : String)
    (now : Int) (f : Failure)
    (hE : EventsService.findById st eventId = Except.error f) :
    create st eventId n userId userEmail userName reservationNumber qrCode
      newId now = (st, Except.error f) := by
  unfold create
  rw [hE]

theorem create_eq_of_validate_error (st : Store) (eventId : String) (n : Nat)
    (userId userEmail userName reservationNumber qrCode newId : String)
    (now : Int) (event : Event) (f : Failure)
    (hE : EventsService.findById st eventId = Except.ok event)
    (hV : validateEventForReservation event now = Except.error f) :
    create st eventId n userId userEmail userName reservationNumber qrCode
      newId now = (st, Except.error f) := by
  unfold create
  rw [hE]
  simp only [hV]

theorem create_eq_of_overbooking_error (st : Store) (eventId : String)
    (n : Nat)
    (userId userEmail userName reservationNumber qrCode newId : String)
    (now : Int) (event : Event) (f : Failure)
    (hE : EventsService.findById st eventId = Except.ok event)
    (hV : validateEventForReservation event now = Except.ok ())
    (hO : checkOverbooking event n = Except.error f) :
    create st eventId n userId userEmail userName reservationNumber qrCode
      newId now = (st, Except.error f) := by
  unfold create
  rw [hE]
  simp only [hV, hO]

theorem create_eq_of_existing_error (st : Store) (eventId : String) (n : Nat)
    (userId userEmail userName reservationNumber qrCode newId : String)
    (now : Int) (event : Event) (f : Failure)
    (hE : EventsService.findById st eventId = Except.ok event)
    (hV : validateEventForReservation event now = Except.ok ())
    (hO : checkOverbooking event n = Except.ok ())
    (hC : checkExistingReservation st eventId userId = Except.error f) :
    create st eventId n userId userEmail userName reservationNumber qrCode
      newId now = (st, Except.error f) := by
  unfold create
  rw [hE]
  simp only [hV, hO, hC]

theorem create_eq_of_pass (st : Store) (eventId : String) (n : Nat)
    (userId userEmail userName reservationNumber qrCode newId : String)
    (now : Int) (event : Event)
    (hE : EventsService.findById st eventId = Except.ok event)
    (hV : validateEventForReservation event now = Except.ok ())
    (hO : checkOverbooking event n = Except.ok ())
    (hC : checkExistingReservation st eventId userId = Except.ok ()) :
    create st eventId n userId userEmail userName reservationNumber qrCode
      newId now =
      confirm
        { st with reservations := st.reservations ++
            [(newId, createdReservation event eventId n userId userEmail
              userName reservationNumber qrCode)] }
        newId now := by
  unfold create
  rw [hE]
  simp only [hV, hO, hC]

end ReservationsService

/-! ### Claim C1 -/

/-- Claim C1: for every stored event satisfying
`0 ≤ registeredCount ≤ capacity`, the invariant still holds after every
counter or capacity operation: any event returned by
incrementRegisteredCount or decrementRegisteredCount satisfies it,
incrementRegisteredCount refuses to increment (leaves the store unchanged
and returns no event) once `registeredCount ≥ capacity`,
decrementRegisteredCount refuses to decrement below 0 (at count 0 it
returns the event unchanged without saving), and validateCapacity — the
guard EventsService.update runs on every capacity change — accepts a new
capacity exactly when it is not below the current registered count. -/
theorem c1_registered_count_invariant :
    (∀ (st : Store) (id : String) (e e2 : Event),
      EventsService.findEventById st id = some e →
      0 ≤ e.registeredCount → e.registeredCount ≤ e.capacity →
      ((EventsService.incrementRegisteredCount st id).2 = Except.ok e2 ∨
       (EventsService.decrementRegisteredCount st id).2 = Except.ok e2) →
      0 ≤ e2.registeredCount ∧ e2.registeredCount ≤ e2.capacity) ∧
    (∀ (st : Store) (id : String) (e : Event),
      EventsService.findEventById st id = some e →
      e.capacity ≤ e.registeredCount →
      (EventsService.incrementRegisteredCount st id).1 = st ∧
      ∀ e2, (EventsService.incrementRegisteredCount st id).2 ≠ Except.ok e2) ∧
    (∀ (st : Store) (id : String) (e : Event),
      EventsService.findEventById st id = some e →
      e.registeredCount = 0 →
      EventsService.decrementRegisteredCount st id = (st, Except.ok e)) ∧
    (∀ newCapacity registeredCount : Int,
      EventsService.validateCapacity newCapacity registeredCount =
        Except.ok () ↔ registeredCount ≤ newCapacity) := by
  refine ⟨?_, ?_, ?_, ?_⟩
  · intro st id e e2 h h0 hcap hok
    rcases hok with hok | hok
    · by_cases hp : e.status = EventStatus.published
      · by_cases hc : e.registeredCount < e.capacity
        · rw [EventsService.increment_eq_of_ok st id e h hp hc] at hok
          simp only [Except.ok.injEq] at hok
          subst hok
          refine ⟨?_, ?_⟩
          · show (0 : Int) ≤ e.registeredCount + 1
            omega
          · show e.registeredCount + 1 ≤ e.capacity
            omega
        · rw [EventsService.increment_eq_of_full st id e h hp
            (not_lt.mp hc)] at hok
          simp at hok
      · rw [EventsService.increment_eq_of_not_published st id e h hp] at hok
        simp at hok
    · by_cases hc : 0 < e.registeredCount
      · rw [EventsService.decrement_eq_of_pos st id e h hc] at hok
        simp only [Except.ok.injEq] at hok
        subst hok
        refine ⟨?_, ?_⟩
        · show (0 : Int) ≤ e.registeredCount - 1
          omega
        · show e.registeredCount - 1 ≤ e.capacity
          omega
      · rw [EventsService.decrement_eq_of_zero st id e h (by omega)] at hok
        simp only [Except.ok.injEq] at hok
        subst hok
        exact ⟨h0, hcap⟩
  · intro st id e h hc
    by_cases hp : e.status = EventStatus.published
    · rw [EventsService.increment_eq_of_full st id e h hp hc]
      exact ⟨rfl, by simp⟩
    · rw [EventsService.increment_eq_of_not_published st id e h hp]
      exact ⟨rfl, by simp⟩
  · intro st id e h hz
    exact EventsService.decrement_eq_of_zero st id e h (by omega)
  · intro newCapacity registeredCount
    by_cases hlt : newCapacity < registeredCount
    · simp only [EventsService.validateCapacity, hlt, if_true]
      constructor
      · intro hcon
        exact absurd hcon (by simp)
      · intro hle
        omega
    · simp only [EventsService.validateCapacity, hlt, if_false]
      constructor
      · intro _
        omega
      · intro _
        trivial

/-- Witness for C1 at a concrete store: incrementing the open sample event
(capacity 2, one registered) yields a count of 2 that still satisfies the
invariant. -/
theorem c1_registered_count_invariant_witness :
    0 ≤ ({ evOpen with registeredCount := 2 } : Event).registeredCount ∧
    ({ evOpen with registeredCount := 2 } : Event).registeredCount ≤
      ({ evOpen with registeredCount := 2 } : Event).capacity :=
  c1_registered_count_invariant.1 stOpen sampleEventId evOpen
    { evOpen with registeredCount := 2 } (by decide) (by decide) (by decide)
    (Or.inl (by decide))

/-! ### Claim C2 -/

/-- Counterexample to C2 as stated: at the concrete store with a published
event of capacity 1 and zero registered and a pending two-ticket
reservation, Confirm fails on its second per-ticket increment, yet the
event counter now reads 1 while it read 0 before the call — the failed
Confirm is not free of partial effect (the reservation does remain
pending). -/
theorem c2_confirm_atomicity_counterexample :
    (ReservationsService.confirm stTight sampleReservationId 0).2 =
      Except.error (Failure.badRequest Msg.eventFullIncrement) ∧
    EventsService.findEventById
        ((ReservationsService.confirm stTight sampleReservationId 0).1)
        sampleEventId = some { evTight with registeredCount := 1 } ∧
    ReservationsService.findReservationById
        ((ReservationsService.confirm stTight sampleReservationId 0).1)
        sampleReservationId = some resPendingTwo ∧
    evTight.registeredCount = 0 ∧
    ({ evTight with registeredCount := 1 } : Event).registeredCount ≠
      evTight.registeredCount := by
  refine ⟨by decide, by decide, by decide, by decide, by decide⟩

/-- Claim C2 amended: when a per-ticket increment of Confirm fails because
the event lacks room for all n tickets, Confirm fails with the Full error
and the reservation remains pending (the reservations collection is
untouched), but the increments already applied are NOT compensated: the
event is left with registeredCount = capacity, not with its prior count. -/
theorem c2_confirm_no_rollback :
    ∀ (st : Store) (id : String) (r : Reservation) (e : Event) (now : Int),
      ReservationsService.findReservationById st id = some r →
      r.status = ReservationStatus.pending →
      EventsService.findEventById st r.eventId = some e →
      e.status = EventStatus.published →
      e.registeredCount ≤ e.capacity →
      e.capacity - e.registeredCount < (r.numberOfTickets : Int) →
      (ReservationsService.confirm st id now).2 =
        Except.error (Failure.badRequest Msg.eventFullIncrement) ∧
      ((ReservationsService.confirm st id now).1).reservations =
        st.reservations ∧
      ∃ e2, EventsService.findEventById
          ((ReservationsService.confirm st id now).1) r.eventId = some e2 ∧
        e2.registeredCount = e.capacity ∧ e2.capacity = e.capacity := by
  intro st id r e now hr hp he hpub hle hov
  rw [ReservationsService.confirm_eq_of_pending st id r now hr hp]
  obtain ⟨hsome, e2, hfind2, hrc, hcap⟩ :=
    ReservationsService.incrementLoop_full r.eventId r.numberOfTickets st e
      he hpub hle hov
  have hres := ReservationsService.incrementLoop_reservations r.eventId
    r.numberOfTickets st
  rcases hloop : ReservationsService.incrementLoop r.eventId
      r.numberOfTickets st with ⟨st1, out⟩
  rw [hloop] at hsome hfind2 hres
  cases out with
  | none => simp at hsome
  | some f =>
    have hf : f = Failure.badRequest Msg.eventFullIncrement := by
      simpa using hsome
    subst hf
    refine ⟨rfl, ?_, e2, ?_, hrc, hcap⟩
    · simpa using hres
    · simpa using hfind2

/-- Witness for the amended C2 at the concrete store of the
counterexample. -/
theorem c2_confirm_no_rollback_witness :
    (ReservationsService.confirm stTight sampleReservationId 0).2 =
      Except.error (Failure.badRequest Msg.eventFullIncrement) ∧
    ((ReservationsService.confirm stTight sampleReservationId 0).1).reservations =
      stTight.reservations ∧
    ∃ e2, EventsService.findEventById
        ((ReservationsService.confirm stTight sampleReservationId 0).1)
        resPendingTwo.eventId = some e2 ∧
      e2.registeredCount = evTight.capacity ∧
      e2.capacity = evTight.capacity :=
  c2_confirm_no_rollback stTight sampleReservationId resPendingTwo evTight 0
    (by decide) (by decide) (by decide) (by decide) (by decide) (by decide)

/-! ### Claim C3 -/

/-- Counterexample to C3 as stated: on a published event that is already
full, incrementRegisteredCount throws BadRequestException — the exception
class of the InvalidState kind — and not a ConflictException, so the Full
failure is not classified as a Conflict. -/
theorem c3_increment_counterexample :
    EventsService.incrementRegisteredCount stFull sampleEventId =
      (stFull, Except.error (Failure.badRequest Msg.eventFullIncrement)) ∧
    failureIsConflict (Failure.badRequest Msg.eventFullIncrement) = false := by
  constructor
  · decide
  · decide

/-- Claim C3 amended: incrementRegisteredCount, for every existing event,
fails (BadRequest, InvalidState kind) when the event is not published;
fails with the Full message — also raised as BadRequest, not as a
Conflict — when `registeredCount ≥ capacity`; and otherwise increments
registeredCount by exactly 1 and persists the event.  It returns an event
exactly when neither guard holds. -/
theorem c3_increment_spec :
    ∀ (st : Store) (id : String) (e : Event),
      EventsService.findEventById st id = some e →
      ((e.status ≠ EventStatus.published →
          EventsService.incrementRegisteredCount st id =
            (st, Except.error (Failure.badRequest Msg.incrementOnlyPublished))) ∧
       (e.status = EventStatus.published → e.capacity ≤ e.registeredCount →
          EventsService.incrementRegisteredCount st id =
            (st, Except.error (Failure.badRequest Msg.eventFullIncrement))) ∧
       (e.status = EventStatus.published → e.registeredCount < e.capacity →
          EventsService.incrementRegisteredCount st id =
            (EventsService.saveEvent st id
               { e with registeredCount := e.registeredCount + 1 },
             Except.ok { e with registeredCount := e.registeredCount + 1 }) ∧
          EventsService.findEventById
              ((EventsService.incrementRegisteredCount st id).1) id =
            some { e with registeredCount := e.registeredCount + 1 }) ∧
       ((∃ e2, (EventsService.incrementRegisteredCount st id).2 =
            Except.ok e2) ↔
          (e.status = EventStatus.published ∧
           e.registeredCount < e.capacity))) := by
  intro st id e h
  refine ⟨?_, ?_, ?_, ?_⟩
  · intro hp
    exact EventsService.increment_eq_of_not_published st id e h hp
  · intro hp hc
    exact EventsService.increment_eq_of_full st id e h hp hc
  · intro hp hc
    have heq := EventsService.increment_eq_of_ok st id e h hp hc
    refine ⟨heq, ?_⟩
    rw [heq]
    exact EventsService.findEventById_saveEvent_self st id e _ h
  · constructor
    · rintro ⟨e2, he2⟩
      by_cases hp : e.status = EventStatus.published
      · by_cases hc : e.registeredCount < e.capacity
        · exact ⟨hp, hc⟩
        · rw [EventsService.increment_eq_of_full st id e h hp
            (not_lt.mp hc)] at he2
          simp at he2
      · rw [EventsService.increment_eq_of_not_published st id e h hp] at he2
        simp at he2
    · rintro ⟨hp, hc⟩
      exact ⟨{ e with registeredCount := e.registeredCount + 1 },
        by rw [EventsService.increment_eq_of_ok st id e h hp hc]⟩

/-- Witness for the amended C3 at a concrete store: the full sample event
(capacity 1, one registered) makes incrementRegisteredCount fail with the
Full BadRequest and leaves the store unchanged. -/
theorem c3_increment_spec_witness :
    EventsService.incrementRegisteredCount stFull sampleEventId =
      (stFull, Except.error (Failure.badRequest Msg.eventFullIncrement)) :=
  (c3_increment_spec stFull sampleEventId evFull (by decide)).2.1 (by decide)
    (by decide)

/-! ### Claim C4 -/

/-- Claim C4: at most one active (pending or confirmed) reservation per
(user, event) pair.  Whenever the requesting user already holds an active
reservation on the event, Create fails — the store (reservations and
counters) is unchanged and no success is possible; when the event guards
pass, the failure is specifically the Conflict duplicate-reservation
error; and a successful Create preserves the single-active-reservation
invariant (given a fresh id for the inserted document). -/
theorem c4_single_active_reservation :
    (∀ (st : Store) (eventId : String) (n : Nat)
        (userId userEmail userName reservationNumber qrCode newId : String)
        (now : Int),
      (st.reservations.find? (ReservationsService.activePred eventId
        userId)).isSome = true →
      (ReservationsService.create st eventId n userId userEmail userName
          reservationNumber qrCode newId now).1 = st ∧
      ∀ r2, (ReservationsService.create st eventId n userId userEmail
          userName reservationNumber qrCode newId now).2 ≠ Except.ok r2) ∧
    (∀ (st : Store) (eventId : String) (n : Nat)
        (userId userEmail userName reservationNumber qrCode newId : String)
        (now : Int) (event : Event),
      EventsService.findEventById st eventId = some event →
      event.status = EventStatus.published →
      now < event.startDate →
      (n : Int) ≤ event.capacity - event.registeredCount →
      (st.reservations.find? (ReservationsService.activePred eventId
        userId)).isSome = true →
      ReservationsService.create st eventId n userId userEmail userName
          reservationNumber qrCode newId now =
        (st, Except.error (Failure.conflict Msg.activeReservationExists))) ∧
    (∀ (st : Store) (eventId : String) (n : Nat)
        (userId userEmail userName reservationNumber qrCode newId : String)
        (now : Int) (r2 : Reservation),
      ReservationsService.singleActiveInvariant st →
      lookupL st.reservations newId = none →
      (ReservationsService.create st eventId n userId userEmail userName
          reservationNumber qrCode newId now).2 = Except.ok r2 →
      ReservationsService.singleActiveInvariant
        ((ReservationsService.create st eventId n userId userEmail userName
          reservationNumber qrCode newId now).1)) := by
  refine ⟨?_, ?_, ?_⟩
  · intro st eventId n userId userEmail userName reservationNumber qrCode
      newId now hact
    have hcer := ReservationsService.checkExisting_error_of_some st eventId
      userId hact
    rcases hE : EventsService.findById st eventId with f | event
    · rw [ReservationsService.create_eq_of_event_error st eventId n userId
        userEmail userName reservationNumber qrCode newId now f hE]
      exact ⟨rfl, by simp⟩
    · rcases hV : ReservationsService.validateEventForReservation event now
          with f | u
      · rw [ReservationsService.create_eq_of_validate_error st eventId n
          userId userEmail userName reservationNumber qrCode newId now event
          f hE hV]
        exact ⟨rfl, by simp⟩
      · cases u
        rcases hO : ReservationsService.checkOverbooking event n with f | u2
        · rw [ReservationsService.create_eq_of_overbooking_error st eventId n
            userId userEmail userName reservationNumber qrCode newId now
            event f hE hV hO]
          exact ⟨rfl, by simp⟩
        · cases u2
          rw [ReservationsService.create_eq_of_existing_error st eventId n
            userId userEmail userName reservationNumber qrCode newId now
            event _ hE hV hO hcer]
          exact ⟨rfl, by simp⟩
  · intro st eventId n userId userEmail userName reservationNumber qrCode
      newId now event he hpub hfut hcap hact
    have hE := EventsService.eventsFindById_eq_of_some st eventId event he
    have hV : ReservationsService.validateEventForReservation event now =
        Except.ok () := by
      have h1 : ¬(event.status ≠ EventStatus.published) := by simp [hpub]
      have h2 : ¬(event.startDate ≤ now) := not_le.mpr hfut
      unfold ReservationsService.validateEventForReservation
      simp [h1, h2]
    have hO : ReservationsService.checkOverbooking event n =
        Except.ok () := by
      have h3 : ¬(event.capacity - event.registeredCount < (n : Int)) :=
        not_lt.mpr hcap
      unfold ReservationsService.checkOverbooking
      simp [h3]
    exact ReservationsService.create_eq_of_existing_error st eventId n userId
      userEmail userName reservationNumber qrCode newId now event _ hE hV hO
      (ReservationsService.checkExisting_error_of_some st eventId userId hact)
  · intro st eventId n userId userEmail userName reservationNumber qrCode
      newId now r2 hinv hfresh hok
    rcases hE : EventsService.findById st eventId with f | event
    · rw [ReservationsService.create_eq_of_event_error st eventId n userId
        userEmail userName reservationNumber qrCode newId now f hE] at hok
      simp at hok
    · rcases hV : ReservationsService.validateEventForReservation event now
          with f | u
      · rw [ReservationsService.create_eq_of_validate_error st eventId n
          userId userEmail userName reservationNumber qrCode newId now event
          f hE hV] at hok
        simp at hok
      · cases u
        rcases hO : ReservationsService.checkOverbooking event n with f | u2
        · rw [ReservationsService.create_eq_of_overbooking_error st eventId n
            userId userEmail userName reservationNumber qrCode newId now
            event f hE hV hO] at hok
          simp at hok
        · cases u2
          rcases hC : ReservationsService.checkExistingReservation st eventId
              userId with f | u3
          · rw [ReservationsService.create_eq_of_existing_error st eventId n
              userId userEmail userName reservationNumber qrCode newId now
              event f hE hV hO hC] at hok
            simp at hok
          · cases u3
            have hpassEq := ReservationsService.create_eq_of_pass st eventId
              n userId userEmail userName reservationNumber qrCode newId now
              event hE hV hO hC
            rw [hpassEq] at hok ⊢
            set rP := ReservationsService.createdReservation event eventId n
              userId userEmail userName reservationNumber qrCode with hrP
            set st1 : Store := { st with
              reservations := st.reservations ++ [(newId, rP)] } with hst1
            by_cases hvalid : isValidObjectId newId
            · have hfind1 : ReservationsService.findReservationById st1
                  newId = some rP := by
                rw [hst1]
                simp only [ReservationsService.findReservationById, hvalid,
                  if_true]
                show lookupL (st.reservations ++ [(newId, rP)]) newId =
                  some rP
                rw [lookupL_append_right st.reservations _ newId hfresh]
                simp [lookupL]
              rw [ReservationsService.confirm_eq_of_pending st1 newId rP now
                hfind1 rfl] at hok ⊢
              rcases hloop : ReservationsService.incrementLoop rP.eventId
                  rP.numberOfTickets st1 with ⟨st2, out⟩
              have hres2 : st2.reservations = st1.reservations := by
                have h5 := ReservationsService.incrementLoop_reservations
                  rP.eventId rP.numberOfTickets st1
                rw [hloop] at h5
                exact h5
              cases out with
              | some f =>
                rw [hloop] at hok
                exact Except.noConfusion (show (Except.error f :
                  Except Failure Reservation) = Except.ok r2 from hok)
              | none =>
                show ReservationsService.singleActiveInvariant
                  (ReservationsService.saveReservation st2 newId
                    { rP with
                      status := ReservationStatus.confirmed
                      confirmedAt := some now })
                intro e u
                have hlist : (ReservationsService.saveReservation st2 newId
                    { rP with
                      status := ReservationStatus.confirmed
                      confirmedAt := some now }).reservations =
                    st.reservations ++
                      [(newId, { rP with
                        status := ReservationStatus.confirmed
                        confirmedAt := some now })] := by
                  show replaceL st2.reservations newId _ = _
                  rw [hres2, hst1]
                  show replaceL (st.reservations ++ [(newId, rP)]) newId _ = _
                  rw [replaceL_append]
                  rw [replaceL_eq_of_not_mem st.reservations newId _ hfresh]
                  simp [replaceL]
                unfold ReservationsService.singleActiveInvariant
                  ReservationsService.activeList at hinv
                unfold ReservationsService.activeList
                rw [hlist, List.filter_append, List.length_append]
                by_cases hp : ReservationsService.activePred e u (newId,
                    { rP with
                      status := ReservationStatus.confirmed
                      confirmedAt := some now })
                · have hp2 := hp
                  simp [ReservationsService.activePred,
                    ReservationsService.isActiveStatus] at hp2
                  have he2 : eventId = e := hp2.1
                  have hu2 : userId = u := hp2.2
                  subst he2
                  subst hu2
                  have hnone2 := (ReservationsService.checkExisting_ok_iff st
                    eventId userId).mp hC
                  have hfilter : st.reservations.filter
                      (ReservationsService.activePred eventId userId) =
                      [] := by
                    rw [List.filter_eq_nil_iff]
                    intro a ha
                    exact List.find?_eq_none.mp hnone2 a ha
                  rw [hfilter]
                  simp [hp]
                · have hzero : (List.filter
                      (ReservationsService.activePred e u)
                      [(newId, { rP with
                        status := ReservationStatus.confirmed
                        confirmedAt := some now })]).length = 0 := by
                    simp [hp]
                  rw [hzero]
                  have h6 := hinv e u
                  omega
            · have hnone : ReservationsService.findReservationById st1
                  newId = none := by
                simp [ReservationsService.findReservationById, hvalid]
              unfold ReservationsService.confirm at hok
              rw [ReservationsService.resFindById_eq_of_none _ _ hnone] at hok
              simp at hok

/-- Witness for C4 at a concrete store: user u1 already holds a confirmed
reservation on the roomy sample event, so a second Create by u1 fails with
the duplicate-reservation Conflict and the store is unchanged. -/
theorem c4_single_active_reservation_witness :
    ReservationsService.create stActive sampleEventId 1 "u1" "e" "n" "RES-9"
        "QR-9" sampleNewId 0 =
      (stActive,
       Except.error (Failure.conflict Msg.activeReservationExists)) :=
  c4_single_active_reservation.2.1 stActive sampleEventId 1 "u1" "e" "n"
    "RES-9" "QR-9" sampleNewId 0 evRoomy (by decide) (by decide) (by decide)
    (by decide) (by decide)

/-! ### Claim C5 -/

/-- Claim C5: for an authorized actor (admin or owner), Cancel fails with
InvalidState and leaves the store untouched whenever the reservation is
already canceled or refunded, or is checked in, or — for a non-admin —
strictly fewer than 24 hours remain before the event start; an admin
bypasses the window unconditionally and a non-admin owner at 24 hours or
more passes the window guard (cancel then succeeds). -/
theorem c5_cancel_guards :
    ∀ (st : Store) (id : String) (r : Reservation) (reason : Option String)
        (userId : String) (isAdmin : Bool) (now : Int),
      ReservationsService.findReservationById st id = some r →
      (isAdmin = true ∨ r.userId = userId) →
      (((r.status = ReservationStatus.canceled ∨
            r.status = ReservationStatus.refunded) →
          ReservationsService.cancel st id reason userId isAdmin now =
            (st, Except.error
              (Failure.badRequest Msg.alreadyCanceledReservation))) ∧
       (r.status = ReservationStatus.checked_in →
          ReservationsService.cancel st id reason userId isAdmin now =
            (st, Except.error
              (Failure.badRequest Msg.noCancelAfterCheckIn))) ∧
       (∀ e, r.status ≠ ReservationStatus.canceled →
          r.status ≠ ReservationStatus.refunded →
          r.status ≠ ReservationStatus.checked_in →
          EventsService.findEventById st r.eventId = some e →
          ((isAdmin = false →
              ReservationsService.hoursBeforeEvent e.startDate now < 24 →
              ReservationsService.cancel st id reason userId isAdmin now =
                (st, Except.error
                  (Failure.badRequest Msg.cancelWindowClosed))) ∧
           ((isAdmin = true ∨
              ¬(ReservationsService.hoursBeforeEvent e.startDate now < 24)) →
              ∃ r2, (ReservationsService.cancel st id reason userId isAdmin
                  now).2 = Except.ok r2)))) := by
  intro st id r reason userId isAdmin now hr hauth
  refine ⟨?_, ?_, ?_⟩
  · intro hs
    exact ReservationsService.cancel_eq_of_already st id r reason userId
      isAdmin now hr hauth hs
  · intro hs
    exact ReservationsService.cancel_eq_of_checked_in st id r reason userId
      isAdmin now hr hauth hs
  · intro e h1 h2 h3 he
    refine ⟨?_, ?_⟩
    · intro hadm hw
      subst hadm
      have hown : r.userId = userId := by
        rcases hauth with h | h
        · simp at h
        · exact h
      exact ReservationsService.cancel_eq_of_window_closed st id r e reason
        userId now hr hown h1 h2 h3 he hw
    · intro hw
      exact ⟨_, ReservationsService.cancel_ok_of_pass st id r e reason userId
        isAdmin now hr hauth h1 h2 h3 he hw⟩

/-- Witness for C5 at a concrete store: cancelling an already-canceled
reservation as its owner fails InvalidState with the store unchanged. -/
theorem c5_cancel_guards_witness :
    ReservationsService.cancel stCanceled sampleReservationId none "u1"
        false 0 =
      (stCanceled,
       Except.error (Failure.badRequest Msg.alreadyCanceledReservation)) :=
  (c5_cancel_guards stCanceled sampleReservationId resCanceled none "u1"
    false 0 (by decide) (Or.inr rfl)).1 (Or.inl (by decide))

/-! ### Claim C6 -/

/-- Claim C6: a successful Cancel of a confirmed reservation releases
capacity once per ticket — with numberOfTickets individual decrement calls
the count drops by numberOfTickets (stated under the reachable-state
assumption numberOfTickets ≤ registeredCount; each decrement is a no-op at
zero) — while a successful Cancel of a pending reservation leaves the
events collection untouched; in both cases the reservation becomes
canceled with canceledAt set. -/
theorem c6_cancel_releases_capacity :
    ∀ (st : Store) (id : String) (r : Reservation) (e : Event)
        (reason : Option String) (userId : String) (isAdmin : Bool)
        (now : Int),
      ReservationsService.findReservationById st id = some r →
      (isAdmin = true ∨ r.userId = userId) →
      EventsService.findEventById st r.eventId = some e →
      (isAdmin = true ∨
        ¬(ReservationsService.hoursBeforeEvent e.startDate now < 24)) →
      ((r.status = ReservationStatus.confirmed →
          (r.numberOfTickets : Int) ≤ e.registeredCount →
          (ReservationsService.cancel st id reason userId isAdmin now).2 =
            Except.ok
              { r with
                status := ReservationStatus.canceled
                cancelReason :=
                  some (ReservationsService.appliedCancelReason reason)
                canceledAt := some now } ∧
          ∃ e2, EventsService.findEventById
              ((ReservationsService.cancel st id reason userId isAdmin
                now).1) r.eventId = some e2 ∧
            e2.registeredCount = e.registeredCount - r.numberOfTickets ∧
            e2.capacity = e.capacity) ∧
       (r.status = ReservationStatus.pending →
          (ReservationsService.cancel st id reason userId isAdmin now).2 =
            Except.ok
              { r with
                status := ReservationStatus.canceled
                cancelReason :=
                  some (ReservationsService.appliedCancelReason reason)
                canceledAt := some now } ∧
          ((ReservationsService.cancel st id reason userId isAdmin
            now).1).events = st.events)) := by
  intro st id r e reason userId isAdmin now hr hauth he hw
  constructor
  · intro hc hticks
    have h1 : r.status ≠ ReservationStatus.canceled := by simp [hc]
    have h2 : r.status ≠ ReservationStatus.refunded := by simp [hc]
    have h3 : r.status ≠ ReservationStatus.checked_in := by simp [hc]
    rw [ReservationsService.cancel_eq_of_pass st id r e reason userId isAdmin
      now hr hauth h1 h2 h3 he hw]
    simp only [if_pos hc]
    obtain ⟨hnone, e2, hfind, hrc, hcap⟩ :=
      ReservationsService.decrementLoop_ok r.eventId r.numberOfTickets st e
        he hticks
    rcases hloop : ReservationsService.decrementLoop r.eventId
        r.numberOfTickets st with ⟨st1, out⟩
    rw [hloop] at hnone hfind
    cases out with
    | some f => simp at hnone
    | none =>
      refine ⟨rfl, e2, ?_, hrc, hcap⟩
      exact (EventsService.findEventById_congr _ st1 r.eventId rfl).trans
        hfind
  · intro hc
    have h1 : r.status ≠ ReservationStatus.canceled := by simp [hc]
    have h2 : r.status ≠ ReservationStatus.refunded := by simp [hc]
    have h3 : r.status ≠ ReservationStatus.checked_in := by simp [hc]
    have hcneq : r.status ≠ ReservationStatus.confirmed := by simp [hc]
    rw [ReservationsService.cancel_eq_of_pass st id r e reason userId isAdmin
      now hr hauth h1 h2 h3 he hw]
    simp only [if_neg hcneq]
    exact ⟨trivial, rfl⟩

/-- Witness for C6 at a concrete store (spec Scenario C shape): an admin
cancel of a confirmed two-ticket reservation drops the count from 3 to 1. -/
theorem c6_cancel_releases_capacity_witness :
    (ReservationsService.cancel stMid sampleReservationId none "adm" true
        0).2 =
      Except.ok
        { resConfirmedTwo with
          status := ReservationStatus.canceled
          cancelReason :=
            some (ReservationsService.appliedCancelReason none)
          canceledAt := some 0 } ∧
    ∃ e2, EventsService.findEventById
        ((ReservationsService.cancel stMid sampleReservationId none "adm"
          true 0).1) resConfirmedTwo.eventId = some e2 ∧
      e2.registeredCount =
        evMid.registeredCount - resConfirmedTwo.numberOfTickets ∧
      e2.capacity = evMid.capacity :=
  (c6_cancel_releases_capacity stMid sampleReservationId resConfirmedTwo
    evMid none "adm" true 0 (by decide) (Or.inl rfl) (by decide)
    (Or.inl rfl)).1 (by decide) (by decide)

/-! ### Claim C7 -/

/-- Claim C7: CheckIn succeeds exactly when the reservation is confirmed
and now lies within [startDate − 2h, endDate]: a non-confirmed (pending or
already checked-in) reservation fails InvalidState, strictly before the
window it fails too-early, strictly after endDate it fails event-ended,
and on success the status becomes checked_in with checkedInAt set, so a
second CheckIn on the same reservation always fails. -/
theorem c7_checkin_window :
    ∀ (st : Store) (id : String) (r : Reservation) (e : Event) (now : Int),
      ReservationsService.findReservationById st id = some r →
      EventsService.findEventById st r.eventId = some e →
      ((r.status ≠ ReservationStatus.confirmed →
          ReservationsService.checkIn st id now =
            (st, Except.error
              (Failure.badRequest Msg.onlyConfirmedCanCheckIn))) ∧
       (r.status = ReservationStatus.confirmed →
          now < e.startDate - 2 * 60 * 60 * 1000 →
          ReservationsService.checkIn st id now =
            (st, Except.error (Failure.badRequest Msg.checkInNotYetOpen))) ∧
       (r.status = ReservationStatus.confirmed →
          e.startDate - 2 * 60 * 60 * 1000 ≤ now → e.endDate < now →
          ReservationsService.checkIn st id now =
            (st, Except.error (Failure.badRequest Msg.eventEnded))) ∧
       (r.status = ReservationStatus.confirmed →
          e.startDate - 2 * 60 * 60 * 1000 ≤ now → now ≤ e.endDate →
          (ReservationsService.checkIn st id now).2 =
            Except.ok
              { r with
                status := ReservationStatus.checked_in
                checkedInAt := some now } ∧
          ∀ (now2 : Int) (r3 : Reservation),
            (ReservationsService.checkIn
                ((ReservationsService.checkIn st id now).1) id now2).2 ≠
              Except.ok r3) ∧
       ((∃ r2, (ReservationsService.checkIn st id now).2 = Except.ok r2) ↔
          (r.status = ReservationStatus.confirmed ∧
           e.startDate - 2 * 60 * 60 * 1000 ≤ now ∧ now ≤ e.endDate))) := by
  intro st id r e now hr he
  have hfind := ReservationsService.resFindById_eq_of_some st id r hr
  have hE := EventsService.eventsFindById_eq_of_some st r.eventId e he
  have hA : r.status ≠ ReservationStatus.confirmed →
      ReservationsService.checkIn st id now =
        (st, Except.error
          (Failure.badRequest Msg.onlyConfirmedCanCheckIn)) := by
    intro hs
    unfold ReservationsService.checkIn
    rw [hfind]
    simp [hs]
  have hB : r.status = ReservationStatus.confirmed →
      now < e.startDate - 2 * 60 * 60 * 1000 →
      ReservationsService.checkIn st id now =
        (st, Except.error (Failure.badRequest Msg.checkInNotYetOpen)) := by
    intro hs hlt
    have hsne : ¬(r.status ≠ ReservationStatus.confirmed) := by simp [hs]
    unfold ReservationsService.checkIn
    rw [hfind]
    simp only [if_neg hsne, hE]
    simp only [if_pos hlt]
  have hC : r.status = ReservationStatus.confirmed →
      e.startDate - 2 * 60 * 60 * 1000 ≤ now → e.endDate < now →
      ReservationsService.checkIn st id now =
        (st, Except.error (Failure.badRequest Msg.eventEnded)) := by
    intro hs hge hend
    have hsne : ¬(r.status ≠ ReservationStatus.confirmed) := by simp [hs]
    have hne : ¬(now < e.startDate - 2 * 60 * 60 * 1000) := not_lt.mpr hge
    unfold ReservationsService.checkIn
    rw [hfind]
    simp only [if_neg hsne, hE]
    simp only [if_neg hne, if_pos hend]
  have hD : r.status = ReservationStatus.confirmed →
      e.startDate - 2 * 60 * 60 * 1000 ≤ now → now ≤ e.endDate →
      ReservationsService.checkIn st id now =
        (ReservationsService.saveReservation st id
          { r with
            status := ReservationStatus.checked_in
            checkedInAt := some now },
         Except.ok
          { r with
            status := ReservationStatus.checked_in
            checkedInAt := some now }) := by
    intro hs hge hle
    have hsne : ¬(r.status ≠ ReservationStatus.confirmed) := by simp [hs]
    have hne : ¬(now < e.startDate - 2 * 60 * 60 * 1000) := not_lt.mpr hge
    have hne2 : ¬(e.endDate < now) := not_lt.mpr hle
    unfold ReservationsService.checkIn
    rw [hfind]
    simp only [if_neg hsne, hE]
    simp only [if_neg hne, if_neg hne2]
  refine ⟨hA, hB, hC, ?_, ?_⟩
  · intro hs hge hle
    have heq := hD hs hge hle
    refine ⟨by rw [heq], ?_⟩
    intro now2 r3
    rw [heq]
    have hr2 : ReservationsService.findReservationById
        (ReservationsService.saveReservation st id
          { r with
            status := ReservationStatus.checked_in
            checkedInAt := some now }) id =
        some { r with
          status := ReservationStatus.checked_in
          checkedInAt := some now } :=
      ReservationsService.findReservationById_saveReservation_self st id r _
        hr
    unfold ReservationsService.checkIn
    rw [ReservationsService.resFindById_eq_of_some _ id _ hr2]
    simp
  · constructor
    · rintro ⟨r2, h⟩
      by_cases hs : r.status = ReservationStatus.confirmed
      · by_cases hearly : now < e.startDate - 2 * 60 * 60 * 1000
        · rw [hB hs hearly] at h
          simp at h
        · by_cases hend : e.endDate < now
          · rw [hC hs (not_lt.mp hearly) hend] at h
            simp at h
          · exact ⟨hs, not_lt.mp hearly, not_lt.mp hend⟩
      · rw [hA hs] at h
        simp at h
    · rintro ⟨hs, h1, h2⟩
      exact ⟨_, by rw [hD hs h1 h2]⟩

/-- Witness for C7 at a concrete store (spec Scenario D shape): a confirmed
reservation checked in one hour before the event start succeeds and the
status becomes checked_in. -/
theorem c7_checkin_window_witness :
    (ReservationsService.checkIn stWindow sampleReservationId 499000000).2 =
      Except.ok
        { resConfirmedTwo with
          status := ReservationStatus.checked_in
          checkedInAt := some 499000000 } :=
  ((c7_checkin_window stWindow sampleReservationId resConfirmedTwo evOpen
    499000000 (by decide) (by decide)).2.2.2.1 (by decide) (by decide)
    (by decide)).1

/-! ### Claim C8 -/

/-- Counterexample to C8 as stated: Cancel does move a no_show reservation
to a status other than refunded.  At the concrete store with a no_show
reservation, an admin cancel succeeds and sets the status to canceled —
the status guard of cancel only rejects canceled, refunded and checked_in,
not no_show. -/
theorem c8_no_show_counterexample :
    (ReservationsService.cancel stNoShow sampleReservationId none "adm"
        true 0).2 =
      Except.ok { resNoShow with
        status := ReservationStatus.canceled
        cancelReason := some ReservationsService.defaultCancelReason
        canceledAt := some 0 } ∧
    ReservationStatus.canceled ≠ ReservationStatus.refunded := by
  refine ⟨?_, by decide⟩
  rw [ReservationsService.cancel_eq_of_pass stNoShow sampleReservationId
    resNoShow evOpen none "adm" true 0 (by decide) (Or.inl rfl) (by decide)
    (by decide) (by decide) (by decide) (Or.inl rfl)]
  decide

/-- Claim C8 amended: from no_show exactly two transitions are reachable —
Refund moves it to refunded, and Cancel (when its permission and window
guards pass) moves it to canceled; confirm, checkIn and markNoShow all
reject a no_show reservation, and every successful Cancel outcome has
status canceled. -/
theorem c8_no_show_transitions :
    ∀ (st : Store) (id : String) (r : Reservation) (reason : Option String)
        (userId : String) (isAdmin : Bool) (now now2 : Int),
      ReservationsService.findReservationById st id = some r →
      r.status = ReservationStatus.no_show →
      (ReservationsService.confirm st id now).2 =
        Except.error (Failure.badRequest Msg.onlyPendingCanConfirm) ∧
      (ReservationsService.checkIn st id now2).2 =
        Except.error (Failure.badRequest Msg.onlyConfirmedCanCheckIn) ∧
      (ReservationsService.markNoShow st id).2 =
        Except.error (Failure.badRequest Msg.onlyConfirmedCanNoShow) ∧
      (ReservationsService.refund st id).2 =
        Except.ok { r with status := ReservationStatus.refunded } ∧
      (∀ r2, (ReservationsService.cancel st id reason userId isAdmin now).2 =
          Except.ok r2 → r2.status = ReservationStatus.canceled) := by
  intro st id r reason userId isAdmin now now2 hr hs
  have hfind := ReservationsService.resFindById_eq_of_some st id r hr
  refine ⟨?_, ?_, ?_, ?_, ?_⟩
  · unfold ReservationsService.confirm
    rw [hfind]
    simp [hs]
  · unfold ReservationsService.checkIn
    rw [hfind]
    simp [hs]
  · unfold ReservationsService.markNoShow
    rw [hfind]
    simp [hs]
  · unfold ReservationsService.refund
    rw [hfind]
    simp [hs]
  · intro r2 h
    exact (ReservationsService.cancel_ok_canceled st id reason userId
      isAdmin now r2 h).1

/-- Witness for the amended C8: at the concrete no_show store, refund moves
the reservation to refunded. -/
theorem c8_no_show_transitions_witness :
    (ReservationsService.refund stNoShow sampleReservationId).2 =
      Except.ok { resNoShow with status := ReservationStatus.refunded } :=
  (c8_no_show_transitions stNoShow sampleReservationId resNoShow none "u"
    false 0 0 (by decide) (by decide)).2.2.2.1

/-! ### Claim C9 -/

/-- Claim C9: verifyByQrCode never mutates the store and evaluates its
decision table in order: unknown token → invalid with no reservation;
canceled → invalid (was canceled); checked_in → invalid (already used);
any other non-confirmed status → invalid (not valid); confirmed → valid.
Whenever the token resolves, the stored reservation record itself is
returned unchanged. -/
theorem c9_verify_qr_decision_table :
    ∀ (st : Store) (token : String),
      ((ReservationsService.verifyByQrCode st token).1 = st) ∧
      (ReservationsService.findByQrCode st token = none →
        (ReservationsService.verifyByQrCode st token).2 =
          { valid := false, reservation := none,
            message := ReservationsService.VerifyMsg.invalidQrCode }) ∧
      (∀ r, ReservationsService.findByQrCode st token = some r →
        ((ReservationsService.verifyByQrCode st token).2.reservation =
            some r ∧
         (r.status = ReservationStatus.canceled →
            (ReservationsService.verifyByQrCode st token).2 =
              { valid := false, reservation := some r,
                message := ReservationsService.VerifyMsg.qrReservationCanceled }) ∧
         (r.status = ReservationStatus.checked_in →
            (ReservationsService.verifyByQrCode st token).2 =
              { valid := false, reservation := some r,
                message := ReservationsService.VerifyMsg.qrAlreadyUsed }) ∧
         (r.status ≠ ReservationStatus.canceled →
          r.status ≠ ReservationStatus.checked_in →
          r.status ≠ ReservationStatus.confirmed →
            (ReservationsService.verifyByQrCode st token).2 =
              { valid := false, reservation := some r,
                message := ReservationsService.VerifyMsg.qrNotValid }) ∧
         (r.status = ReservationStatus.confirmed →
            (ReservationsService.verifyByQrCode st token).2 =
              { valid := true, reservation := some r,
                message := ReservationsService.VerifyMsg.qrValidReservation }))) := by
  intro st token
  rcases hf : ReservationsService.findByQrCode st token with _ | r
  · refine ⟨?_, ?_, ?_⟩
    · simp [ReservationsService.verifyByQrCode, hf]
    · intro _
      simp [ReservationsService.verifyByQrCode, hf]
    · intro r hr
      simp at hr
  · refine ⟨?_, ?_, ?_⟩
    · cases hst : r.status <;>
        simp [ReservationsService.verifyByQrCode, hf, hst]
    · intro hnone
      simp at hnone
    · intro r2 hr2
      injection hr2 with hr2
      subst hr2
      refine ⟨?_, ?_, ?_, ?_, ?_⟩
      · cases hst : r.status <;>
          simp [ReservationsService.verifyByQrCode, hf, hst]
      · intro hc
        simp [ReservationsService.verifyByQrCode, hf, hc]
      · intro hc
        simp [ReservationsService.verifyByQrCode, hf, hc]
      · intro h1 h2 h3
        cases hst : r.status with
        | pending => simp [ReservationsService.verifyByQrCode, hf, hst]
        | confirmed => exact absurd hst h3
        | canceled => exact absurd hst h1
        | checked_in => exact absurd hst h2
        | no_show => simp [ReservationsService.verifyByQrCode, hf, hst]
        | refunded => simp [ReservationsService.verifyByQrCode, hf, hst]
      · intro hc
        simp [ReservationsService.verifyByQrCode, hf, hc]

/-- Witness for C9 at a concrete store (spec Scenario E): verifying the QR
token of a checked-in reservation yields invalid with the already-used
message. -/
theorem c9_verify_qr_decision_table_witness :
    (ReservationsService.verifyByQrCode stCheckedIn "QR-1").2 =
      { valid := false, reservation := some resCheckedIn,
        message := ReservationsService.VerifyMsg.qrAlreadyUsed } :=
  (((c9_verify_qr_decision_table stCheckedIn "QR-1").2.2 resCheckedIn
    (by decide)).2.2.1) (by decide)

/-! ### Claim C10 -/

/-- Claim C10: for every id string that is not a well-formed ObjectId, both
findById operations fail NotFound instead of propagating a parse exception,
and every engine operation taking an id fails NotFound with the store
unchanged; ids that are well-formed but do not resolve also fail
NotFound. -/
theorem c10_malformed_id_not_found :
    (∀ (id : String) (st : Store) (reason : Option String)
        (userId : String) (isAdmin : Bool) (now : Int),
      isValidObjectId id = false →
      EventsService.findById st id =
        Except.error (Failure.notFound Msg.eventNotFound) ∧
      ReservationsService.findById st id =
        Except.error (Failure.notFound Msg.reservationNotFound) ∧
      EventsService.incrementRegisteredCount st id =
        (st, Except.error (Failure.notFound Msg.eventNotFound)) ∧
      EventsService.decrementRegisteredCount st id =
        (st, Except.error (Failure.notFound Msg.eventNotFound)) ∧
      ReservationsService.confirm st id now =
        (st, Except.error (Failure.notFound Msg.reservationNotFound)) ∧
      ReservationsService.cancel st id reason userId isAdmin now =
        (st, Except.error (Failure.notFound Msg.reservationNotFound)) ∧
      ReservationsService.checkIn st id now =
        (st, Except.error (Failure.notFound Msg.reservationNotFound)) ∧
      ReservationsService.markNoShow st id =
        (st, Except.error (Failure.notFound Msg.reservationNotFound)) ∧
      ReservationsService.refund st id =
        (st, Except.error (Failure.notFound Msg.reservationNotFound))) ∧
    (∀ (id : String) (st : Store),
      EventsService.findEventById st id = none →
      EventsService.findById st id =
        Except.error (Failure.notFound Msg.eventNotFound)) ∧
    (∀ (id : String) (st : Store),
      ReservationsService.findReservationById st id = none →
      ReservationsService.findById st id =
        Except.error (Failure.notFound Msg.reservationNotFound)) := by
  refine ⟨?_, ?_, ?_⟩
  · intro id st reason userId isAdmin now h
    have hfe : EventsService.findEventById st id = none := by
      simp [EventsService.findEventById, h]
    have hfr : ReservationsService.findReservationById st id = none := by
      simp [ReservationsService.findReservationById, h]
    have hE := EventsService.eventsFindById_eq_of_none st id hfe
    have hR := ReservationsService.resFindById_eq_of_none st id hfr
    refine ⟨hE, hR, ?_, ?_, ?_, ?_, ?_, ?_, ?_⟩
    · unfold EventsService.incrementRegisteredCount
      rw [hE]
    · unfold EventsService.decrementRegisteredCount
      rw [hE]
    · unfold ReservationsService.confirm
      rw [hR]
    · unfold ReservationsService.cancel
      rw [hR]
    · unfold ReservationsService.checkIn
      rw [hR]
    · unfold ReservationsService.markNoShow
      rw [hR]
    · unfold ReservationsService.refund
      rw [hR]
  · intro id st h
    exact EventsService.eventsFindById_eq_of_none st id h
  · intro id st h
    exact ReservationsService.resFindById_eq_of_none st id h

/-- Witness for C10: the malformed id string does fail NotFound on the
events service at the empty store. -/
theorem c10_malformed_id_not_found_witness :
    EventsService.findById stEmptyStore "not-an-objectid" =
      Except.error (Failure.notFound Msg.eventNotFound) :=
  (c10_malformed_id_not_found.1 "not-an-objectid" stEmptyStore none "u"
    false 0 (by decide)).1

end Planora
